import Mathlib

/-!
Verification of the INA260 I2C driver (src/INA260.cpp, src/INA260.h).

The driver is a thin wrapper over nine 16-bit hardware registers reached
through a two-wire (I2C) bus.  We embed it shallowly:

* the bus is an oracle (`Bus`): a register file per device address, a flag
  saying whether a register read delivers its two bytes, a flag saying
  whether a register write is acknowledged, and an acknowledge predicate
  for the zero-length probe used by device discovery;
* the driver object state (`INA260State`) holds exactly the fields of the
  C++ class: `address`, `devices[]` (modelled as a total function from
  index to stored byte, so that the unchecked store of `findDevices` is
  expressible at any index) and `deviceCount`;
* every method returns its C++ return value together with the (possibly
  updated) object state and the list of register-level bus transactions it
  performed (`BusOp`), in order;
* the C++ union bitfields (`ConfigurationRegister`, `MaskEnableRegister`)
  are modelled arithmetically on the raw 16-bit value: a field at bit
  offset `sh` of width `w` is read with `getField v sh w = v / 2^sh % 2^w`
  and assigned with the splice `setF`, exactly the semantics of a packed
  little-endian bitfield assignment;
* the floating-point scalings are exact over the value ranges involved
  (raw ≤ 65535, so raw·1.25 = raw·5/4 and raw·10 are exact in float and
  double, and `uint16_t(x / 1.25)` is `⌊x·4/5⌋` because the correctly
  rounded double quotient is within 2⁻³⁶ of x·4/5 whose fractional part is
  a multiple of 1/5; likewise `uint16_t(x / 10) = ⌊x/10⌋`), so results are
  modelled in `Rat` and the stored limits in `Nat` with floor division.
-/

/-! ## Register address map (src/INA260.h) -/

def INA260_CONFIG_REGISTER : Nat := 0x00
def INA260_CURRENT_REGISTER : Nat := 0x01
def INA260_VOLTAGE_REGISTER : Nat := 0x02
def INA260_POWER_REGISTER : Nat := 0x03
def INA260_MASK_ENABLE_REGISTER : Nat := 0x06
def INA260_ALERT_LIMIT_REGISTER : Nat := 0x07
def INA260_MANUFACTURER_ID_REGISTER : Nat := 0xFE
def INA260_DIE_ID_REGISTER : Nat := 0xFF

/-! ## Packed bitfield arithmetic

`ConfigurationRegister`: mode@0:3, ishct@3:3, vbusct@6:3, avg@9:3,
reserved@12:3, rst@15:1.
`MaskEnableRegister`: len@0:1, apol@1:1, ovf@2:1, cvrf@3:1, aff@4:1,
reserved@5:5, cnvr@10:1, pol@11:1, bul@12:1, bol@13:1, ucl@14:1, ocl@15:1.
-/

/-- Read the bitfield of width `w` at bit offset `sh` of a raw value. -/
def getField (v sh w : Nat) : Nat := v / 2 ^ sh % 2 ^ w

/-- Assign `x` (truncated to `w` bits) to the bitfield at offset `sh` of
width `w`, leaving all other bits of `v` unchanged: the semantics of a
C++ packed-bitfield member assignment on the underlying raw value. -/
def setF (v sh w x : Nat) : Nat :=
  v % 2 ^ sh + x % 2 ^ w * 2 ^ sh + v / 2 ^ (sh + w) * 2 ^ (sh + w)

/-! ## The bus oracle and the driver object state -/

/-- The two-wire bus as seen by one sequence of driver calls: the 16-bit
register file of each device address, whether a register read delivers its
two bytes (`Wire.available() == 2`), whether a register write is
acknowledged (`Wire.endTransmission() == 0`), and whether a zero-length
probe transmission is acknowledged (used by `findDevices`). -/
structure Bus where
  regs : Nat → Nat → Nat
  readAvail : Nat → Nat → Bool
  writeOk : Nat → Nat → Bool
  ack : Nat → Bool

/-- The fields of the C++ `INA260` class: the private device `address`, the
public `devices[16]` buffer (as a total function so the unchecked store of
`findDevices` is expressible at any index) and the public `deviceCount`. -/
structure INA260State where
  address : Nat
  devices : Nat → Nat
  deviceCount : Nat

/-- One register-level bus transaction: a 16-bit register read (with the
value the driver obtained), a 16-bit register write, or the zero-length
probe of device discovery (with the acknowledge outcome). -/
inductive BusOp where
  | readOp (addr reg value : Nat)
  | writeOp (addr reg value : Nat)
  | probeOp (addr : Nat) (ok : Bool)
deriving DecidableEq, Repr

/-- Result of one driver method call: the C++ return value, the object
state after the call, and the bus transactions performed, in order. -/
structure MRes (α : Type) where
  val : α
  st : INA260State
  tr : List BusOp

/-- The 16-bit value `INA260::readRegister` obtains from the bus: the
register content when both bytes arrive, `0` otherwise
(src/INA260.cpp:65-76). -/
def readRegVal (b : Bus) (a r : Nat) : Nat :=
  if b.readAvail a r then b.regs a r % 65536 else 0

/-! ## The driver methods (src/INA260.cpp) -/

/-- `INA260::readRegister` (src/INA260.cpp:65-76): one register-read
transaction; returns `(msb << 8) | lsb` when two bytes are available and
`0` otherwise. -/
def readRegister (s : INA260State) (b : Bus) (reg : Nat) : MRes Nat :=
  ⟨readRegVal b s.address reg, s,
    [BusOp.readOp s.address reg (readRegVal b s.address reg)]⟩

/-- `INA260::writeRegister` (src/INA260.cpp:86-92): one register-write
transaction of the two bytes of `value`; returns whether the transmission
was acknowledged. -/
def writeRegister (s : INA260State) (b : Bus) (reg value : Nat) : MRes Bool :=
  ⟨b.writeOk s.address reg, s, [BusOp.writeOp s.address reg (value % 65536)]⟩

/-- `INA260::setAddress` (src/INA260.cpp:45-47); the parameter is a
`uint8_t`. -/
def setAddress (s : INA260State) (addr : Nat) : MRes Unit :=
  ⟨(), { s with address := addr % 256 }, []⟩

/-- `INA260::getAddress` (src/INA260.cpp:54-56). -/
def getAddress (s : INA260State) : MRes Nat :=
  ⟨s.address, s, []⟩

/-- `INA260::readConfigurationRegister` (src/INA260.cpp:103-107); the
returned union is represented by its raw 16-bit value. -/
def readConfigurationRegister (s : INA260State) (b : Bus) : MRes Nat :=
  readRegister s b INA260_CONFIG_REGISTER

/-- `INA260::writeConfigurationRegister` (src/INA260.cpp:117-119). -/
def writeConfigurationRegister (s : INA260State) (b : Bus) (v : Nat) :
    MRes Bool :=
  writeRegister s b INA260_CONFIG_REGISTER v

/-- `INA260::reset` (src/INA260.cpp:36-40): a zero-initialised
configuration value with the `rst` field (bit 15) set to 1, written back. -/
def reset (s : INA260State) (b : Bus) : MRes Bool :=
  writeConfigurationRegister s b (setF 0 15 1 1)

/-- `INA260::begin` (src/INA260.cpp:20-28): initialises the bus once,
calls `reset`, and returns the (by then true) `wireInitialized` flag —
not the result of `reset`. -/
def begin (s : INA260State) (b : Bus) : MRes Bool :=
  let r := reset s b
  ⟨true, r.st, r.tr⟩

/-- `INA260::readCurrent` (src/INA260.cpp:126-128): raw current register
value times 1.25 (= 5/4, exact in the C++ float arithmetic), in mA. -/
def readCurrent (s : INA260State) (b : Bus) : MRes Rat :=
  let r := readRegister s b INA260_CURRENT_REGISTER
  ⟨(r.val : Rat) * (5 / 4), r.st, r.tr⟩

/-- `INA260::readBusVoltage` (src/INA260.cpp:135-137): raw bus-voltage
register value times 1.25, in mV. -/
def readBusVoltage (s : INA260State) (b : Bus) : MRes Rat :=
  let r := readRegister s b INA260_VOLTAGE_REGISTER
  ⟨(r.val : Rat) * (5 / 4), r.st, r.tr⟩

/-- `INA260::readPower` (src/INA260.cpp:144-146): raw power register value
times 10, in mW. -/
def readPower (s : INA260State) (b : Bus) : MRes Rat :=
  let r := readRegister s b INA260_POWER_REGISTER
  ⟨(r.val : Rat) * 10, r.st, r.tr⟩

/-- `INA260::readMaskEnableRegister` (src/INA260.cpp:154-158). -/
def readMaskEnableRegister (s : INA260State) (b : Bus) : MRes Nat :=
  readRegister s b INA260_MASK_ENABLE_REGISTER

/-- `INA260::writeMaskEnableRegister` (src/INA260.cpp:165-167). -/
def writeMaskEnableRegister (s : INA260State) (b : Bus) (v : Nat) :
    MRes Bool :=
  writeRegister s b INA260_MASK_ENABLE_REGISTER v

/-- `INA260::readAlertLimitRegister` (src/INA260.cpp:174-183): reads the
Mask/Enable register, then the alert-limit register, scaling the latter by
10 when the `pol` field (bit 11) of the value read is 1 and by 1.25
otherwise. -/
def readAlertLimitRegister (s : INA260State) (b : Bus) : MRes Rat :=
  let r := readMaskEnableRegister s b
  if getField r.val 11 1 = 1 then
    let r2 := readRegister r.st b INA260_ALERT_LIMIT_REGISTER
    ⟨(r2.val : Rat) * 10, r2.st, r.tr ++ r2.tr⟩
  else
    let r2 := readRegister r.st b INA260_ALERT_LIMIT_REGISTER
    ⟨(r2.val : Rat) * (5 / 4), r2.st, r.tr ++ r2.tr⟩

/-- `INA260::writeAlertLimitRegister` (src/INA260.cpp:191-193). -/
def writeAlertLimitRegister (s : INA260State) (b : Bus) (v : Nat) :
    MRes Bool :=
  writeRegister s b INA260_ALERT_LIMIT_REGISTER v

/-- `INA260::setCurrentLimit` (src/INA260.cpp:291-294):
`uint16_t value = milliAmps / 1.25`.  The correctly rounded double
quotient differs from the exact mA·4/5 by less than 2⁻³⁶ while the
fractional part of mA·4/5 is a multiple of 1/5, so the truncation to
`uint16_t` is exactly the floor, i.e. Nat division `mA * 4 / 5`.  The
`% 65536` models the `uint16_t` parameter. -/
def setCurrentLimit (s : INA260State) (b : Bus) (mA : Nat) : MRes Bool :=
  writeAlertLimitRegister s b (mA % 65536 * 4 / 5)

/-- `INA260::setBusVoltageLimit` (src/INA260.cpp:302-305):
`uint16_t value = milliVolts / 1.25`, exactly `mV * 4 / 5` as for
`setCurrentLimit`. -/
def setBusVoltageLimit (s : INA260State) (b : Bus) (mV : Nat) : MRes Bool :=
  writeAlertLimitRegister s b (mV % 65536 * 4 / 5)

/-- `INA260::setPowerLimit` (src/INA260.cpp:313-316):
`uint16_t value = milliWatts / 10`, exactly the floor `mW / 10`. -/
def setPowerLimit (s : INA260State) (b : Bus) (mW : Nat) : MRes Bool :=
  writeAlertLimitRegister s b (mW % 65536 / 10)

/-- `INA260::enableOverCurrentLimitAlert` (src/INA260.cpp:202-211): reads
the Mask/Enable register, sets `ocl` (bit 15) and clears `ucl`, `bol`,
`bul`, `pol` (bits 14-11) in the order of the source, calls
`setCurrentLimit`, then writes the Mask/Enable register back. -/
def enableOverCurrentLimitAlert (s : INA260State) (b : Bus) (mA : Nat) :
    MRes Bool :=
  let r := readMaskEnableRegister s b
  let m := setF (setF (setF (setF (setF r.val 15 1 1) 14 1 0) 13 1 0) 12 1 0)
    11 1 0
  let rl := setCurrentLimit r.st b mA
  let rw := writeMaskEnableRegister rl.st b m
  ⟨rw.val, rw.st, r.tr ++ rl.tr ++ rw.tr⟩

/-- `INA260::enableUnderCurrentLimitAlert` (src/INA260.cpp:220-229). -/
def enableUnderCurrentLimitAlert (s : INA260State) (b : Bus) (mA : Nat) :
    MRes Bool :=
  let r := readMaskEnableRegister s b
  let m := setF (setF (setF (setF (setF r.val 15 1 0) 14 1 1) 13 1 0) 12 1 0)
    11 1 0
  let rl := setCurrentLimit r.st b mA
  let rw := writeMaskEnableRegister rl.st b m
  ⟨rw.val, rw.st, r.tr ++ rl.tr ++ rw.tr⟩

/-- `INA260::enableBusOvertLimitAlert` (src/INA260.cpp:238-247). -/
def enableBusOvertLimitAlert (s : INA260State) (b : Bus) (mV : Nat) :
    MRes Bool :=
  let r := readMaskEnableRegister s b
  let m := setF (setF (setF (setF (setF r.val 15 1 0) 14 1 0) 13 1 1) 12 1 0)
    11 1 0
  let rl := setBusVoltageLimit r.st b mV
  let rw := writeMaskEnableRegister rl.st b m
  ⟨rw.val, rw.st, r.tr ++ rl.tr ++ rw.tr⟩

/-- `INA260::enableBusUnderLimitAlert` (src/INA260.cpp:256-265). -/
def enableBusUnderLimitAlert (s : INA260State) (b : Bus) (mV : Nat) :
    MRes Bool :=
  let r := readMaskEnableRegister s b
  let m := setF (setF (setF (setF (setF r.val 15 1 0) 14 1 0) 13 1 0) 12 1 1)
    11 1 0
  let rl := setBusVoltageLimit r.st b mV
  let rw := writeMaskEnableRegister rl.st b m
  ⟨rw.val, rw.st, r.tr ++ rl.tr ++ rw.tr⟩

/-- `INA260::enableOverPowerLimitAlert` (src/INA260.cpp:274-283). -/
def enableOverPowerLimitAlert (s : INA260State) (b : Bus) (mW : Nat) :
    MRes Bool :=
  let r := readMaskEnableRegister s b
  let m := setF (setF (setF (setF (setF r.val 15 1 0) 14 1 0) 13 1 0) 12 1 0)
    11 1 1
  let rl := setPowerLimit r.st b mW
  let rw := writeMaskEnableRegister rl.st b m
  ⟨rw.val, rw.st, r.tr ++ rl.tr ++ rw.tr⟩

/-- `INA260::isMathOverFlow` (src/INA260.cpp:325-328): the `ovf` field
(bit 2) of the Mask/Enable register. -/
def isMathOverFlow (s : INA260State) (b : Bus) : MRes Bool :=
  let r := readMaskEnableRegister s b
  ⟨getField r.val 2 1 == 1, r.st, r.tr⟩

/-- `INA260::isAlert` (src/INA260.cpp:337-340): the `aff` field (bit 4). -/
def isAlert (s : INA260State) (b : Bus) : MRes Bool :=
  let r := readMaskEnableRegister s b
  ⟨getField r.val 4 1 == 1, r.st, r.tr⟩

/-- `INA260::clearAlert` (src/INA260.cpp:345-347): reads the Mask/Enable
register and discards the value. -/
def clearAlert (s : INA260State) (b : Bus) : MRes Unit :=
  let r := readMaskEnableRegister s b
  ⟨(), r.st, r.tr⟩

/-- `INA260::isAlertPolaritySet` (src/INA260.cpp:354-357): the `apol`
field (bit 1). -/
def isAlertPolaritySet (s : INA260State) (b : Bus) : MRes Bool :=
  let r := readMaskEnableRegister s b
  ⟨getField r.val 1 1 == 1, r.st, r.tr⟩

/-- `INA260::setAlertPolarity` (src/INA260.cpp:366-370): read, assign the
`apol` field (bit 1), write back. -/
def setAlertPolarity (s : INA260State) (b : Bus) (polarity : Bool) :
    MRes Bool :=
  let r := readMaskEnableRegister s b
  let rw := writeMaskEnableRegister r.st b
    (setF r.val 1 1 (if polarity then 1 else 0))
  ⟨rw.val, rw.st, r.tr ++ rw.tr⟩

/-- `INA260::isAlertLatchSet` (src/INA260.cpp:377-380): the `len` field
(bit 0). -/
def isAlertLatchSet (s : INA260State) (b : Bus) : MRes Bool :=
  let r := readMaskEnableRegister s b
  ⟨getField r.val 0 1 == 1, r.st, r.tr⟩

/-- `INA260::setAlertLatch` (src/INA260.cpp:389-393): read, assign the
`len` field (bit 0), write back. -/
def setAlertLatch (s : INA260State) (b : Bus) (latch : Bool) : MRes Bool :=
  let r := readMaskEnableRegister s b
  let rw := writeMaskEnableRegister r.st b
    (setF r.val 0 1 (if latch then 1 else 0))
  ⟨rw.val, rw.st, r.tr ++ rw.tr⟩

/-- `INA260::getMode` (src/INA260.cpp:400-403): the `mode` field
(bits 0-2) of the configuration register, as the underlying value of the
`Mode` enumeration. -/
def getMode (s : INA260State) (b : Bus) : MRes Nat :=
  let r := readConfigurationRegister s b
  ⟨getField r.val 0 3, r.st, r.tr⟩

/-- `INA260::setMode` (src/INA260.cpp:410-414): read, assign the `mode`
field (bits 0-2), write back; the C++ method returns `void` and discards
the write result. -/
def setMode (s : INA260State) (b : Bus) (mode : Nat) : MRes Unit :=
  let r := readConfigurationRegister s b
  let rw := writeConfigurationRegister r.st b (setF r.val 0 3 mode)
  ⟨(), rw.st, r.tr ++ rw.tr⟩

/-- `INA260::isConversionRready` (src/INA260.cpp:422-425): the `cvrf`
field (bit 3) of the Mask/Enable register. -/
def isConversionRready (s : INA260State) (b : Bus) : MRes Bool :=
  let r := readMaskEnableRegister s b
  ⟨getField r.val 3 1 == 1, r.st, r.tr⟩

/-- `INA260::setConversionReadyAlert` (src/INA260.cpp:434-438): read,
assign the `cnvr` field (bit 10), write back. -/
def setConversionReadyAlert (s : INA260State) (b : Bus) (state : Bool) :
    MRes Bool :=
  let r := readMaskEnableRegister s b
  let rw := writeMaskEnableRegister r.st b
    (setF r.val 10 1 (if state then 1 else 0))
  ⟨rw.val, rw.st, r.tr ++ rw.tr⟩

/-- `INA260::getCurrentConversionTime` (src/INA260.cpp:445-448): the
`ishct` field (bits 3-5) of the configuration register. -/
def getCurrentConversionTime (s : INA260State) (b : Bus) : MRes Nat :=
  let r := readConfigurationRegister s b
  ⟨getField r.val 3 3, r.st, r.tr⟩

/-- `INA260::setCurrentConversionTime` (src/INA260.cpp:456-460): read,
assign the `ishct` field (bits 3-5), write back. -/
def setCurrentConversionTime (s : INA260State) (b : Bus) (time : Nat) :
    MRes Bool :=
  let r := readConfigurationRegister s b
  let rw := writeConfigurationRegister r.st b (setF r.val 3 3 time)
  ⟨rw.val, rw.st, r.tr ++ rw.tr⟩

/-- `INA260::getVoltageConversionTime` (src/INA260.cpp:467-470): the
`vbusct` field (bits 6-8) of the configuration register. -/
def getVoltageConversionTime (s : INA260State) (b : Bus) : MRes Nat :=
  let r := readConfigurationRegister s b
  ⟨getField r.val 6 3, r.st, r.tr⟩

/-- `INA260::setVoltageConversionTime` (src/INA260.cpp:478-482): read,
assign the `vbusct` field (bits 6-8), write back. -/
def setVoltageConversionTime (s : INA260State) (b : Bus) (time : Nat) :
    MRes Bool :=
  let r := readConfigurationRegister s b
  let rw := writeConfigurationRegister r.st b (setF r.val 6 3 time)
  ⟨rw.val, rw.st, r.tr ++ rw.tr⟩

/-- `INA260::getAveragingCount` (src/INA260.cpp:489-492): the `avg` field
(bits 9-11) of the configuration register. -/
def getAveragingCount (s : INA260State) (b : Bus) : MRes Nat :=
  let r := readConfigurationRegister s b
  ⟨getField r.val 9 3, r.st, r.tr⟩

/-- `INA260::setAveragingCount` (src/INA260.cpp:500-504): read, assign
the `avg` field (bits 9-11), write back. -/
def setAveragingCount (s : INA260State) (b : Bus) (count : Nat) : MRes Bool :=
  let r := readConfigurationRegister s b
  let rw := writeConfigurationRegister r.st b (setF r.val 9 3 count)
  ⟨rw.val, rw.st, r.tr ++ rw.tr⟩

/-- `INA260::readManufactuerId` (src/INA260.cpp:511-518): the two bytes
of the manufacturer-ID register, high byte first. -/
def readManufactuerId (s : INA260State) (b : Bus) : MRes (Nat × Nat) :=
  let r := readRegister s b INA260_MANUFACTURER_ID_REGISTER
  ⟨(r.val / 256 % 256, r.val % 256), r.st, r.tr⟩

/-- `INA260::readDieId` (src/INA260.cpp:525-529); the returned union is
represented by its raw 16-bit value. -/
def readDieId (s : INA260State) (b : Bus) : MRes Nat :=
  readRegister s b INA260_DIE_ID_REGISTER

/-- The loop body of `INA260::findDevices` (src/INA260.cpp:536-547) over a
list of addresses: probe each address with a zero-length transmission and,
on acknowledge, store it at index `deviceCount` of `devices[]` (no bound
check) and increment `deviceCount`.  Returns the final state, the probe
trace and the list of indices at which stores into `devices[]` occurred. -/
def findDevicesGo (b : Bus) :
    INA260State → List Nat → INA260State × List BusOp × List Nat
  | s, [] => (s, [], [])
  | s, a :: rest =>
    if b.ack a then
      let s' : INA260State :=
        { s with
          devices := fun i => if i = s.deviceCount then a else s.devices i,
          deviceCount := s.deviceCount + 1 }
      let r := findDevicesGo b s' rest
      (r.1, BusOp.probeOp a true :: r.2.1, s.deviceCount :: r.2.2)
    else
      let r := findDevicesGo b s rest
      (r.1, BusOp.probeOp a false :: r.2.1, r.2.2)

/-- `INA260::findDevices` (src/INA260.cpp:536-547): `for (byte address =
1; address < 127; address++)`, i.e. addresses 1..126.  The C++ method
returns `void`; the returned value here is instrumentation recording the
indices of the stores into `devices[]`. -/
def findDevices (s : INA260State) (b : Bus) : MRes (List Nat) :=
  let r := findDevicesGo b s (List.range' 1 126)
  ⟨r.2.2, r.1, r.2.1⟩

/-- The addresses probed by the `probeOp` transactions of a trace, in
order. -/
def probedAddrs : List BusOp → List Nat
  | [] => []
  | BusOp.probeOp a _ :: t => a :: probedAddrs t
  | _ :: t => probedAddrs t

/-- Whether a bus transaction is a register read. -/
def isReadOp : BusOp → Bool
  | BusOp.readOp _ _ _ => true
  | _ => false

/-- Whether a bus transaction is a register write. -/
def isWriteOp : BusOp → Bool
  | BusOp.writeOp _ _ _ => true
  | _ => false

/-- Number of register-read transactions in a trace. -/
def numReads (t : List BusOp) : Nat := (t.filter isReadOp).length

/-- Number of register-write transactions in a trace. -/
def numWrites (t : List BusOp) : Nat := (t.filter isWriteOp).length

/-- The given bus with the read of register `r` of device `a` failing to
deliver its two bytes. -/
def withFailedRead (b : Bus) (a r : Nat) : Bus :=
  { b with readAvail := fun x y =>
      if x = a ∧ y = r then false else b.readAvail x y }

/-- The given bus with register `r` of device `a` genuinely holding zero
and its read succeeding. -/
def withZeroReg (b : Bus) (a r : Nat) : Bus :=
  { b with
    regs := fun x y => if x = a ∧ y = r then 0 else b.regs x y,
    readAvail := fun x y =>
      if x = a ∧ y = r then true else b.readAvail x y }

/-! ## Concrete instances used by witnesses and counterexamples -/

/-- A driver state at the default address with a zeroed discovery buffer. -/
def st0 : INA260State := ⟨0x40, fun _ => 0, 0⟩

/-- A bus whose registers all read zero, with every read and write
succeeding and no device acknowledging a probe. -/
def busZero : Bus :=
  ⟨fun _ _ => 0, fun _ _ => true, fun _ _ => true, fun _ => false⟩

/-- A bus on which only the device at address 5 acknowledges a probe. -/
def bus5 : Bus :=
  ⟨fun _ _ => 0, fun _ _ => true, fun _ _ => true, fun a => a == 5⟩

/-- A bus whose Mask/Enable register has the `pol` flag (bit 11) set and
whose alert-limit register holds 3. -/
def busC2 : Bus :=
  ⟨fun _ r => if r = 6 then 2048 else if r = 7 then 3 else 0,
    fun _ _ => true, fun _ _ => true, fun _ => false⟩

/-- A driver state whose discovery buffer already holds 15 entries. -/
def st15 : INA260State := ⟨0x40, fun _ => 0, 15⟩

/-! ## Bitfield and driver lemmas -/

theorem getField_setF_self (v sh w x : Nat) :
    getField (setF v sh w x) sh w = x % 2 ^ w := by
  have hP : 0 < 2 ^ sh := pow_pos (by norm_num) sh
  have hlt : v % 2 ^ sh < 2 ^ sh := Nat.mod_lt _ hP
  have h1 : setF v sh w x =
      v % 2 ^ sh + (x % 2 ^ w + v / (2 ^ sh * 2 ^ w) * 2 ^ w) * 2 ^ sh := by
    unfold setF; rw [pow_add]; ring
  unfold getField
  rw [h1, Nat.add_mul_div_right _ _ hP, Nat.div_eq_of_lt hlt, Nat.zero_add,
    Nat.add_mul_mod_self_right, Nat.mod_mod_of_dvd _ dvd_rfl]

theorem setF_low_lt (v sh w x : Nat) :
    v % 2 ^ sh + x % 2 ^ w * 2 ^ sh < 2 ^ (sh + w) := by
  have h1 : v % 2 ^ sh < 2 ^ sh := Nat.mod_lt _ (pow_pos (by norm_num) sh)
  have h2 : x % 2 ^ w < 2 ^ w := Nat.mod_lt _ (pow_pos (by norm_num) w)
  calc v % 2 ^ sh + x % 2 ^ w * 2 ^ sh
      < 2 ^ sh + x % 2 ^ w * 2 ^ sh := by omega
    _ = (x % 2 ^ w + 1) * 2 ^ sh := by ring
    _ ≤ 2 ^ w * 2 ^ sh := Nat.mul_le_mul_right _ h2
    _ = 2 ^ (sh + w) := by rw [pow_add]; ring

theorem setF_div_high (v sh w x : Nat) :
    setF v sh w x / 2 ^ (sh + w) = v / 2 ^ (sh + w) := by
  have hPQ : 0 < 2 ^ (sh + w) := pow_pos (by norm_num) (sh + w)
  unfold setF
  rw [Nat.add_mul_div_right _ _ hPQ, Nat.div_eq_of_lt (setF_low_lt v sh w x),
    Nat.zero_add]

theorem getField_setF_above (v sh w x sh' w' : Nat) (h : sh + w ≤ sh') :
    getField (setF v sh w x) sh' w' = getField v sh' w' := by
  obtain ⟨d, hd⟩ : ∃ d, sh' = (sh + w) + d := ⟨sh' - (sh + w), by omega⟩
  subst hd
  unfold getField
  rw [pow_add, ← Nat.div_div_eq_div_mul, setF_div_high, Nat.div_div_eq_div_mul,
    ← pow_add]

theorem setF_mod_low (v sh w x : Nat) :
    setF v sh w x % 2 ^ sh = v % 2 ^ sh := by
  have h1 : setF v sh w x =
      v % 2 ^ sh + (x % 2 ^ w + v / (2 ^ sh * 2 ^ w) * 2 ^ w) * 2 ^ sh := by
    unfold setF; rw [pow_add]; ring
  rw [h1, Nat.add_mul_mod_self_right, Nat.mod_mod_of_dvd _ dvd_rfl]

theorem getField_setF_below (v sh w x sh' w' : Nat) (h : sh' + w' ≤ sh) :
    getField (setF v sh w x) sh' w' = getField v sh' w' := by
  have hdvd : (2 : Nat) ^ (sh' + w') ∣ 2 ^ sh := pow_dvd_pow 2 h
  have hu : setF v sh w x % 2 ^ (sh' + w') = v % 2 ^ (sh' + w') := by
    rw [← Nat.mod_mod_of_dvd _ hdvd, setF_mod_low, Nat.mod_mod_of_dvd _ hdvd]
  unfold getField
  rw [← Nat.mod_mul_right_div_self, ← pow_add, hu, pow_add,
    Nat.mod_mul_right_div_self]

/-! ## Helper lemmas -/

theorem setF_lt_two_pow (v sh w x k : Nat) (hv : v < 2 ^ k)
    (hsw : sh + w ≤ k) : setF v sh w x < 2 ^ k := by
  obtain ⟨d, hd⟩ : ∃ d, k = (sh + w) + d := ⟨k - (sh + w), by omega⟩
  subst hd
  have hlow := setF_low_lt v sh w x
  have hdiv : v / 2 ^ (sh + w) < 2 ^ d := by
    rw [Nat.div_lt_iff_lt_mul (pow_pos (by norm_num) _)]
    calc v < 2 ^ ((sh + w) + d) := hv
      _ = 2 ^ d * 2 ^ (sh + w) := by rw [pow_add]; ring
  unfold setF
  calc v % 2 ^ sh + x % 2 ^ w * 2 ^ sh + v / 2 ^ (sh + w) * 2 ^ (sh + w)
      < 2 ^ (sh + w) + v / 2 ^ (sh + w) * 2 ^ (sh + w) := by omega
    _ = (v / 2 ^ (sh + w) + 1) * 2 ^ (sh + w) := by ring
    _ ≤ 2 ^ d * 2 ^ (sh + w) := Nat.mul_le_mul_right _ hdiv
    _ = 2 ^ ((sh + w) + d) := by rw [pow_add]; ring

theorem readRegVal_lt (b : Bus) (a r : Nat) : readRegVal b a r < 65536 := by
  unfold readRegVal
  split
  · exact Nat.mod_lt _ (by norm_num)
  · norm_num

/-- The five limit-selection flags of the Mask/Enable value produced by the
`enable*LimitAlert` methods, which assign `ocl` (bit 15), `ucl` (14),
`bol` (13), `bul` (12), `pol` (11) in that order. -/
theorem maskFlags (v x15 x14 x13 x12 x11 : Nat) :
    getField (setF (setF (setF (setF (setF v 15 1 x15) 14 1 x14) 13 1 x13)
        12 1 x12) 11 1 x11) 15 1 = x15 % 2 ∧
    getField (setF (setF (setF (setF (setF v 15 1 x15) 14 1 x14) 13 1 x13)
        12 1 x12) 11 1 x11) 14 1 = x14 % 2 ∧
    getField (setF (setF (setF (setF (setF v 15 1 x15) 14 1 x14) 13 1 x13)
        12 1 x12) 11 1 x11) 13 1 = x13 % 2 ∧
    getField (setF (setF (setF (setF (setF v 15 1 x15) 14 1 x14) 13 1 x13)
        12 1 x12) 11 1 x11) 12 1 = x12 % 2 ∧
    getField (setF (setF (setF (setF (setF v 15 1 x15) 14 1 x14) 13 1 x13)
        12 1 x12) 11 1 x11) 11 1 = x11 % 2 := by
  refine ⟨?_, ?_, ?_, ?_, ?_⟩
  · rw [getField_setF_above _ 11 1 _ 15 1 (by decide),
      getField_setF_above _ 12 1 _ 15 1 (by decide),
      getField_setF_above _ 13 1 _ 15 1 (by decide),
      getField_setF_above _ 14 1 _ 15 1 (by decide),
      getField_setF_self]
    norm_num
  · rw [getField_setF_above _ 11 1 _ 14 1 (by decide),
      getField_setF_above _ 12 1 _ 14 1 (by decide),
      getField_setF_above _ 13 1 _ 14 1 (by decide),
      getField_setF_self]
    norm_num
  · rw [getField_setF_above _ 11 1 _ 13 1 (by decide),
      getField_setF_above _ 12 1 _ 13 1 (by decide),
      getField_setF_self]
    norm_num
  · rw [getField_setF_above _ 11 1 _ 12 1 (by decide),
      getField_setF_self]
    norm_num
  · rw [getField_setF_self]
    norm_num

theorem setF16_mod (v sh w x : Nat) (hv : v < 65536) (hsw : sh + w ≤ 16) :
    setF v sh w x % 65536 = setF v sh w x := by
  apply Nat.mod_eq_of_lt
  have h : (65536 : Nat) = 2 ^ 16 := by norm_num
  rw [h] at hv ⊢
  exact setF_lt_two_pow v sh w x 16 hv hsw

theorem enableMask_lt (v x15 x14 x13 x12 x11 : Nat) (hv : v < 65536) :
    setF (setF (setF (setF (setF v 15 1 x15) 14 1 x14) 13 1 x13) 12 1 x12)
      11 1 x11 < 65536 := by
  have h : (65536 : Nat) = 2 ^ 16 := by norm_num
  rw [h] at hv ⊢
  exact setF_lt_two_pow _ 11 1 _ 16
    (setF_lt_two_pow _ 12 1 _ 16
      (setF_lt_two_pow _ 13 1 _ 16
        (setF_lt_two_pow _ 14 1 _ 16
          (setF_lt_two_pow _ 15 1 _ 16 hv (by decide)) (by decide))
        (by decide)) (by decide)) (by decide)

/-- Full characterisation of the discovery loop over any address list:
the probe trace covers exactly the given addresses in order and contains
no register transaction, the address field is untouched, `deviceCount`
grows by the number of acknowledging addresses, the stores hit the
consecutive indices starting at the initial `deviceCount`, and the buffer
holds the acknowledging addresses at those indices and is unchanged
elsewhere. -/
theorem findDevicesGo_spec (b : Bus) (as : List Nat) :
    ∀ s : INA260State,
    probedAddrs (findDevicesGo b s as).2.1 = as ∧
    numReads (findDevicesGo b s as).2.1 = 0 ∧
    numWrites (findDevicesGo b s as).2.1 = 0 ∧
    (findDevicesGo b s as).1.address = s.address ∧
    (findDevicesGo b s as).1.deviceCount =
      s.deviceCount + (as.filter b.ack).length ∧
    (findDevicesGo b s as).2.2 =
      List.range' s.deviceCount (as.filter b.ack).length ∧
    ∀ i, (findDevicesGo b s as).1.devices i =
      if s.deviceCount ≤ i ∧ i < s.deviceCount + (as.filter b.ack).length
      then (as.filter b.ack).getD (i - s.deviceCount) 0
      else s.devices i := by
  induction as with
  | nil =>
    intro s
    refine ⟨rfl, rfl, rfl, rfl, rfl, rfl, ?_⟩
    intro i
    have hc : ¬(s.deviceCount ≤ i ∧ i < s.deviceCount +
        (List.filter b.ack []).length) := by
      simp only [List.filter_nil, List.length_nil]
      omega
    rw [if_neg hc]
    rfl
  | cons a rest ih =>
    intro s
    cases hack : b.ack a with
    | false =>
      have hgo : findDevicesGo b s (a :: rest) =
          ((findDevicesGo b s rest).1,
            BusOp.probeOp a false :: (findDevicesGo b s rest).2.1,
            (findDevicesGo b s rest).2.2) := by
        simp [findDevicesGo, hack]
      have hfil : List.filter b.ack (a :: rest) = List.filter b.ack rest := by
        simp [List.filter_cons, hack]
      obtain ⟨ih1, ih2, ih3, ih4, ih5, ih6, ih7⟩ := ih s
      rw [hgo, hfil]
      refine ⟨?_, ?_, ?_, ih4, ih5, ih6, ih7⟩
      · simpa [probedAddrs] using ih1
      · simpa [numReads, List.filter_cons, isReadOp] using ih2
      · simpa [numWrites, List.filter_cons, isWriteOp] using ih3
    | true =>
      have hgo : findDevicesGo b s (a :: rest) =
          ((findDevicesGo b
              ⟨s.address,
                fun i => if i = s.deviceCount then a else s.devices i,
                s.deviceCount + 1⟩ rest).1,
            BusOp.probeOp a true :: (findDevicesGo b
              ⟨s.address,
                fun i => if i = s.deviceCount then a else s.devices i,
                s.deviceCount + 1⟩ rest).2.1,
            s.deviceCount :: (findDevicesGo b
              ⟨s.address,
                fun i => if i = s.deviceCount then a else s.devices i,
                s.deviceCount + 1⟩ rest).2.2) := by
        simp [findDevicesGo, hack]
      have hfil : List.filter b.ack (a :: rest) =
          a :: List.filter b.ack rest := by
        simp [List.filter_cons, hack]
      obtain ⟨ih1, ih2, ih3, ih4, ih5, ih6, ih7⟩ :=
        ih ⟨s.address, fun i => if i = s.deviceCount then a else s.devices i,
          s.deviceCount + 1⟩
      rw [hgo, hfil]
      refine ⟨?_, ?_, ?_, ih4, ?_, ?_, ?_⟩
      · simpa [probedAddrs] using ih1
      · simpa [numReads, List.filter_cons, isReadOp] using ih2
      · simpa [numWrites, List.filter_cons, isWriteOp] using ih3
      · rw [ih5]
        simp only [List.length_cons]
        omega
      · rw [ih6]
        simp only [List.length_cons]
        rw [List.range'_succ]
      · intro i
        rw [ih7 i]
        simp only [List.length_cons]
        by_cases hi : i = s.deviceCount
        · subst hi
          rw [if_neg (by omega), if_pos (by omega)]
          simp
        · by_cases hc : s.deviceCount + 1 ≤ i ∧
              i < s.deviceCount + 1 + (List.filter b.ack rest).length
          · rw [if_pos hc, if_pos (by omega)]
            obtain ⟨j, hj⟩ : ∃ j, i - s.deviceCount = j + 1 :=
              ⟨i - s.deviceCount - 1, by omega⟩
            rw [hj, List.getD_cons_succ]
            have hj2 : i - (s.deviceCount + 1) = j := by omega
            rw [hj2]
          · have hrc : ¬(s.deviceCount ≤ i ∧
                i < s.deviceCount + ((List.filter b.ack rest).length + 1)) := by
              omega
            rw [if_neg hc, if_neg hrc]
            simp [hi]

/-! ## The claims -/

/-- C1: for every 16-bit raw value returned by the underlying register
read, `readCurrent` returns the raw value of the current register times
1.25 (mA), `readBusVoltage` the raw value of the bus-voltage register
times 1.25 (mV), and `readPower` the raw value of the power register
times 10 (mW). -/
theorem C1_scaled_measurements (s : INA260State) (b : Bus) :
    (readCurrent s b).val =
      (readRegVal b s.address INA260_CURRENT_REGISTER : Rat) * (5 / 4) ∧
    (readBusVoltage s b).val =
      (readRegVal b s.address INA260_VOLTAGE_REGISTER : Rat) * (5 / 4) ∧
    (readPower s b).val =
      (readRegVal b s.address INA260_POWER_REGISTER : Rat) * 10 :=
  ⟨rfl, rfl, rfl⟩

/-- C2: when the bus delivers both register reads, `readAlertLimitRegister`
returns the raw alert-limit register value times 10 if the `pol` flag
(bit 11) of the device's Mask/Enable register is set, and times 1.25
otherwise. -/
theorem C2_alert_limit_scaling (s : INA260State) (b : Bus)
    (h6 : b.readAvail s.address INA260_MASK_ENABLE_REGISTER = true)
    (h7 : b.readAvail s.address INA260_ALERT_LIMIT_REGISTER = true) :
    (readAlertLimitRegister s b).val =
      if getField (b.regs s.address INA260_MASK_ENABLE_REGISTER % 65536)
          11 1 = 1 then
        ((b.regs s.address INA260_ALERT_LIMIT_REGISTER % 65536 : Nat) : Rat)
          * 10
      else
        ((b.regs s.address INA260_ALERT_LIMIT_REGISTER % 65536 : Nat) : Rat)
          * (5 / 4) := by
  unfold readAlertLimitRegister readMaskEnableRegister readRegister readRegVal
  dsimp only
  rw [h6, h7]
  simp only [eq_self_iff_true, if_true]
  split <;> rfl

/-- Witness for C2 at a bus with `pol` set and alert limit 3. -/
theorem C2_alert_limit_scaling_witness :
    busC2.readAvail st0.address INA260_MASK_ENABLE_REGISTER = true ∧
    busC2.readAvail st0.address INA260_ALERT_LIMIT_REGISTER = true ∧
    (readAlertLimitRegister st0 busC2).val =
      (if getField (busC2.regs st0.address INA260_MASK_ENABLE_REGISTER
          % 65536) 11 1 = 1 then
        ((busC2.regs st0.address INA260_ALERT_LIMIT_REGISTER % 65536 : Nat) :
          Rat) * 10
      else
        ((busC2.regs st0.address INA260_ALERT_LIMIT_REGISTER % 65536 : Nat) :
          Rat) * (5 / 4)) :=
  ⟨rfl, rfl, C2_alert_limit_scaling st0 busC2 rfl rfl⟩

/-- C6: for every `uint16_t` argument, `setCurrentLimit` and
`setBusVoltageLimit` write the argument divided by 1.25 and truncated
(equal to `n * 4 / 5` in natural division) to the alert-limit register,
and `setPowerLimit` writes the argument divided by 10, truncated. -/
theorem C6_limit_reverse_scaling (s : INA260State) (b : Bus) (n : Nat)
    (h : n < 65536) :
    (setCurrentLimit s b n).tr =
      [BusOp.writeOp s.address INA260_ALERT_LIMIT_REGISTER (n * 4 / 5)] ∧
    (setBusVoltageLimit s b n).tr =
      [BusOp.writeOp s.address INA260_ALERT_LIMIT_REGISTER (n * 4 / 5)] ∧
    (setPowerLimit s b n).tr =
      [BusOp.writeOp s.address INA260_ALERT_LIMIT_REGISTER (n / 10)] := by
  have e : n % 65536 = n := Nat.mod_eq_of_lt h
  have h1 : n * 4 / 5 % 65536 = n * 4 / 5 := Nat.mod_eq_of_lt (by omega)
  have h2 : n / 10 % 65536 = n / 10 := Nat.mod_eq_of_lt (by omega)
  unfold setCurrentLimit setBusVoltageLimit setPowerLimit
    writeAlertLimitRegister writeRegister
  rw [e, h1, h2]
  exact ⟨rfl, rfl, rfl⟩

/-- Witness for C6 at the argument 1000 (writes 800, 800 and 100). -/
theorem C6_limit_reverse_scaling_witness :
    (1000 : Nat) < 65536 ∧
    ((setCurrentLimit st0 busZero 1000).tr =
      [BusOp.writeOp st0.address INA260_ALERT_LIMIT_REGISTER
        (1000 * 4 / 5)] ∧
    (setBusVoltageLimit st0 busZero 1000).tr =
      [BusOp.writeOp st0.address INA260_ALERT_LIMIT_REGISTER
        (1000 * 4 / 5)] ∧
    (setPowerLimit st0 busZero 1000).tr =
      [BusOp.writeOp st0.address INA260_ALERT_LIMIT_REGISTER (1000 / 10)]) :=
  ⟨by decide, C6_limit_reverse_scaling st0 busZero 1000 (by decide)⟩

/-- C3: each of the five `enable*LimitAlert` methods performs one
Mask/Enable read, then one alert-limit write carrying the scaled argument
(the delegated limit setter, before the Mask/Enable write-back), then one
Mask/Enable write-back whose value has exactly the method's own
limit-selection flag set among `ocl` (bit 15), `ucl` (14), `bol` (13),
`bul` (12), `pol` (11), the other four cleared. -/
theorem C3_enable_alert_methods (s : INA260State) (b : Bus) (n : Nat) :
    (∃ v m, (enableOverCurrentLimitAlert s b n).tr =
        [BusOp.readOp s.address INA260_MASK_ENABLE_REGISTER v,
          BusOp.writeOp s.address INA260_ALERT_LIMIT_REGISTER
            (n % 65536 * 4 / 5),
          BusOp.writeOp s.address INA260_MASK_ENABLE_REGISTER m] ∧
      getField m 15 1 = 1 ∧ getField m 14 1 = 0 ∧ getField m 13 1 = 0 ∧
      getField m 12 1 = 0 ∧ getField m 11 1 = 0) ∧
    (∃ v m, (enableUnderCurrentLimitAlert s b n).tr =
        [BusOp.readOp s.address INA260_MASK_ENABLE_REGISTER v,
          BusOp.writeOp s.address INA260_ALERT_LIMIT_REGISTER
            (n % 65536 * 4 / 5),
          BusOp.writeOp s.address INA260_MASK_ENABLE_REGISTER m] ∧
      getField m 15 1 = 0 ∧ getField m 14 1 = 1 ∧ getField m 13 1 = 0 ∧
      getField m 12 1 = 0 ∧ getField m 11 1 = 0) ∧
    (∃ v m, (enableBusOvertLimitAlert s b n).tr =
        [BusOp.readOp s.address INA260_MASK_ENABLE_REGISTER v,
          BusOp.writeOp s.address INA260_ALERT_LIMIT_REGISTER
            (n % 65536 * 4 / 5),
          BusOp.writeOp s.address INA260_MASK_ENABLE_REGISTER m] ∧
      getField m 15 1 = 0 ∧ getField m 14 1 = 0 ∧ getField m 13 1 = 1 ∧
      getField m 12 1 = 0 ∧ getField m 11 1 = 0) ∧
    (∃ v m, (enableBusUnderLimitAlert s b n).tr =
        [BusOp.readOp s.address INA260_MASK_ENABLE_REGISTER v,
          BusOp.writeOp s.address INA260_ALERT_LIMIT_REGISTER
            (n % 65536 * 4 / 5),
          BusOp.writeOp s.address INA260_MASK_ENABLE_REGISTER m] ∧
      getField m 15 1 = 0 ∧ getField m 14 1 = 0 ∧ getField m 13 1 = 0 ∧
      getField m 12 1 = 1 ∧ getField m 11 1 = 0) ∧
    (∃ v m, (enableOverPowerLimitAlert s b n).tr =
        [BusOp.readOp s.address INA260_MASK_ENABLE_REGISTER v,
          BusOp.writeOp s.address INA260_ALERT_LIMIT_REGISTER (n % 65536 / 10),
          BusOp.writeOp s.address INA260_MASK_ENABLE_REGISTER m] ∧
      getField m 15 1 = 0 ∧ getField m 14 1 = 0 ∧ getField m 13 1 = 0 ∧
      getField m 12 1 = 0 ∧ getField m 11 1 = 1) := by
  have hv := readRegVal_lt b s.address INA260_MASK_ENABLE_REGISTER
  have hL : n % 65536 * 4 / 5 % 65536 = n % 65536 * 4 / 5 :=
    Nat.mod_eq_of_lt (by omega)
  have hP : n % 65536 / 10 % 65536 = n % 65536 / 10 :=
    Nat.mod_eq_of_lt (by omega)
  refine ⟨?_, ?_, ?_, ?_, ?_⟩
  · unfold enableOverCurrentLimitAlert setCurrentLimit writeAlertLimitRegister
      readMaskEnableRegister writeMaskEnableRegister readRegister writeRegister
    dsimp only
    rw [hL, Nat.mod_eq_of_lt (enableMask_lt _ 1 0 0 0 0 hv)]
    exact ⟨_, _, rfl, by simpa using (maskFlags _ 1 0 0 0 0).1,
      by simpa using (maskFlags _ 1 0 0 0 0).2.1,
      by simpa using (maskFlags _ 1 0 0 0 0).2.2.1,
      by simpa using (maskFlags _ 1 0 0 0 0).2.2.2.1,
      by simpa using (maskFlags _ 1 0 0 0 0).2.2.2.2⟩
  · unfold enableUnderCurrentLimitAlert setCurrentLimit writeAlertLimitRegister
      readMaskEnableRegister writeMaskEnableRegister readRegister writeRegister
    dsimp only
    rw [hL, Nat.mod_eq_of_lt (enableMask_lt _ 0 1 0 0 0 hv)]
    exact ⟨_, _, rfl, by simpa using (maskFlags _ 0 1 0 0 0).1,
      by simpa using (maskFlags _ 0 1 0 0 0).2.1,
      by simpa using (maskFlags _ 0 1 0 0 0).2.2.1,
      by simpa using (maskFlags _ 0 1 0 0 0).2.2.2.1,
      by simpa using (maskFlags _ 0 1 0 0 0).2.2.2.2⟩
  · unfold enableBusOvertLimitAlert setBusVoltageLimit writeAlertLimitRegister
      readMaskEnableRegister writeMaskEnableRegister readRegister writeRegister
    dsimp only
    rw [hL, Nat.mod_eq_of_lt (enableMask_lt _ 0 0 1 0 0 hv)]
    exact ⟨_, _, rfl, by simpa using (maskFlags _ 0 0 1 0 0).1,
      by simpa using (maskFlags _ 0 0 1 0 0).2.1,
      by simpa using (maskFlags _ 0 0 1 0 0).2.2.1,
      by simpa using (maskFlags _ 0 0 1 0 0).2.2.2.1,
      by simpa using (maskFlags _ 0 0 1 0 0).2.2.2.2⟩
  · unfold enableBusUnderLimitAlert setBusVoltageLimit writeAlertLimitRegister
      readMaskEnableRegister writeMaskEnableRegister readRegister writeRegister
    dsimp only
    rw [hL, Nat.mod_eq_of_lt (enableMask_lt _ 0 0 0 1 0 hv)]
    exact ⟨_, _, rfl, by simpa using (maskFlags _ 0 0 0 1 0).1,
      by simpa using (maskFlags _ 0 0 0 1 0).2.1,
      by simpa using (maskFlags _ 0 0 0 1 0).2.2.1,
      by simpa using (maskFlags _ 0 0 0 1 0).2.2.2.1,
      by simpa using (maskFlags _ 0 0 0 1 0).2.2.2.2⟩
  · unfold enableOverPowerLimitAlert setPowerLimit writeAlertLimitRegister
      readMaskEnableRegister writeMaskEnableRegister readRegister writeRegister
    dsimp only
    rw [hP, Nat.mod_eq_of_lt (enableMask_lt _ 0 0 0 0 1 hv)]
    exact ⟨_, _, rfl, by simpa using (maskFlags _ 0 0 0 0 1).1,
      by simpa using (maskFlags _ 0 0 0 0 1).2.1,
      by simpa using (maskFlags _ 0 0 0 0 1).2.2.1,
      by simpa using (maskFlags _ 0 0 0 0 1).2.2.2.1,
      by simpa using (maskFlags _ 0 0 0 0 1).2.2.2.2⟩

/-- C5: each single-field setter on a multi-field register reads the
register, writes back a value whose targeted bitfield holds the argument,
and leaves every other bitfield of that register (including the reserved
ones) exactly as read.  Configuration register: `setMode` (bits 0-2),
`setCurrentConversionTime` (3-5), `setVoltageConversionTime` (6-8),
`setAveragingCount` (9-11); Mask/Enable register: `setAlertPolarity`
(bit 1), `setAlertLatch` (bit 0), `setConversionReadyAlert` (bit 10). -/
theorem C5_setters_preserve_other_fields (s : INA260State) (b : Bus)
    (m t c : Nat) (p q u : Bool) :
    (∃ w, (setMode s b m).tr =
        [BusOp.readOp s.address INA260_CONFIG_REGISTER
          (readRegVal b s.address INA260_CONFIG_REGISTER),
          BusOp.writeOp s.address INA260_CONFIG_REGISTER w] ∧
      getField w 0 3 = m % 2 ^ 3 ∧
      getField w 3 3 = getField (readRegVal b s.address
        INA260_CONFIG_REGISTER) 3 3 ∧
      getField w 6 3 = getField (readRegVal b s.address
        INA260_CONFIG_REGISTER) 6 3 ∧
      getField w 9 3 = getField (readRegVal b s.address
        INA260_CONFIG_REGISTER) 9 3 ∧
      getField w 12 3 = getField (readRegVal b s.address
        INA260_CONFIG_REGISTER) 12 3 ∧
      getField w 15 1 = getField (readRegVal b s.address
        INA260_CONFIG_REGISTER) 15 1) ∧
    (∃ w, (setCurrentConversionTime s b t).tr =
        [BusOp.readOp s.address INA260_CONFIG_REGISTER
          (readRegVal b s.address INA260_CONFIG_REGISTER),
          BusOp.writeOp s.address INA260_CONFIG_REGISTER w] ∧
      getField w 3 3 = t % 2 ^ 3 ∧
      getField w 0 3 = getField (readRegVal b s.address
        INA260_CONFIG_REGISTER) 0 3 ∧
      getField w 6 3 = getField (readRegVal b s.address
        INA260_CONFIG_REGISTER) 6 3 ∧
      getField w 9 3 = getField (readRegVal b s.address
        INA260_CONFIG_REGISTER) 9 3 ∧
      getField w 12 3 = getField (readRegVal b s.address
        INA260_CONFIG_REGISTER) 12 3 ∧
      getField w 15 1 = getField (readRegVal b s.address
        INA260_CONFIG_REGISTER) 15 1) ∧
    (∃ w, (setVoltageConversionTime s b t).tr =
        [BusOp.readOp s.address INA260_CONFIG_REGISTER
          (readRegVal b s.address INA260_CONFIG_REGISTER),
          BusOp.writeOp s.address INA260_CONFIG_REGISTER w] ∧
      getField w 6 3 = t % 2 ^ 3 ∧
      getField w 0 3 = getField (readRegVal b s.address
        INA260_CONFIG_REGISTER) 0 3 ∧
      getField w 3 3 = getField (readRegVal b s.address
        INA260_CONFIG_REGISTER) 3 3 ∧
      getField w 9 3 = getField (readRegVal b s.address
        INA260_CONFIG_REGISTER) 9 3 ∧
      getField w 12 3 = getField (readRegVal b s.address
        INA260_CONFIG_REGISTER) 12 3 ∧
      getField w 15 1 = getField (readRegVal b s.address
        INA260_CONFIG_REGISTER) 15 1) ∧
    (∃ w, (setAveragingCount s b c).tr =
        [BusOp.readOp s.address INA260_CONFIG_REGISTER
          (readRegVal b s.address INA260_CONFIG_REGISTER),
          BusOp.writeOp s.address INA260_CONFIG_REGISTER w] ∧
      getField w 9 3 = c % 2 ^ 3 ∧
      getField w 0 3 = getField (readRegVal b s.address
        INA260_CONFIG_REGISTER) 0 3 ∧
      getField w 3 3 = getField (readRegVal b s.address
        INA260_CONFIG_REGISTER) 3 3 ∧
      getField w 6 3 = getField (readRegVal b s.address
        INA260_CONFIG_REGISTER) 6 3 ∧
      getField w 12 3 = getField (readRegVal b s.address
        INA260_CONFIG_REGISTER) 12 3 ∧
      getField w 15 1 = getField (readRegVal b s.address
        INA260_CONFIG_REGISTER) 15 1) ∧
    (∃ w, (setAlertPolarity s b p).tr =
        [BusOp.readOp s.address INA260_MASK_ENABLE_REGISTER
          (readRegVal b s.address INA260_MASK_ENABLE_REGISTER),
          BusOp.writeOp s.address INA260_MASK_ENABLE_REGISTER w] ∧
      getField w 1 1 = (if p then 1 else 0) ∧
      getField w 0 1 = getField (readRegVal b s.address
        INA260_MASK_ENABLE_REGISTER) 0 1 ∧
      getField w 2 1 = getField (readRegVal b s.address
        INA260_MASK_ENABLE_REGISTER) 2 1 ∧
      getField w 3 1 = getField (readRegVal b s.address
        INA260_MASK_ENABLE_REGISTER) 3 1 ∧
      getField w 4 1 = getField (readRegVal b s.address
        INA260_MASK_ENABLE_REGISTER) 4 1 ∧
      getField w 5 5 = getField (readRegVal b s.address
        INA260_MASK_ENABLE_REGISTER) 5 5 ∧
      getField w 10 1 = getField (readRegVal b s.address
        INA260_MASK_ENABLE_REGISTER) 10 1 ∧
      getField w 11 1 = getField (readRegVal b s.address
        INA260_MASK_ENABLE_REGISTER) 11 1 ∧
      getField w 12 1 = getField (readRegVal b s.address
        INA260_MASK_ENABLE_REGISTER) 12 1 ∧
      getField w 13 1 = getField (readRegVal b s.address
        INA260_MASK_ENABLE_REGISTER) 13 1 ∧
      getField w 14 1 = getField (readRegVal b s.address
        INA260_MASK_ENABLE_REGISTER) 14 1 ∧
      getField w 15 1 = getField (readRegVal b s.address
        INA260_MASK_ENABLE_REGISTER) 15 1) ∧
    (∃ w, (setAlertLatch s b q).tr =
        [BusOp.readOp s.address INA260_MASK_ENABLE_REGISTER
          (readRegVal b s.address INA260_MASK_ENABLE_REGISTER),
          BusOp.writeOp s.address INA260_MASK_ENABLE_REGISTER w] ∧
      getField w 0 1 = (if q then 1 else 0) ∧
      getField w 1 1 = getField (readRegVal b s.address
        INA260_MASK_ENABLE_REGISTER) 1 1 ∧
      getField w 2 1 = getField (readRegVal b s.address
        INA260_MASK_ENABLE_REGISTER) 2 1 ∧
      getField w 3 1 = getField (readRegVal b s.address
        INA260_MASK_ENABLE_REGISTER) 3 1 ∧
      getField w 4 1 = getField (readRegVal b s.address
        INA260_MASK_ENABLE_REGISTER) 4 1 ∧
      getField w 5 5 = getField (readRegVal b s.address
        INA260_MASK_ENABLE_REGISTER) 5 5 ∧
      getField w 10 1 = getField (readRegVal b s.address
        INA260_MASK_ENABLE_REGISTER) 10 1 ∧
      getField w 11 1 = getField (readRegVal b s.address
        INA260_MASK_ENABLE_REGISTER) 11 1 ∧
      getField w 12 1 = getField (readRegVal b s.address
        INA260_MASK_ENABLE_REGISTER) 12 1 ∧
      getField w 13 1 = getField (readRegVal b s.address
        INA260_MASK_ENABLE_REGISTER) 13 1 ∧
      getField w 14 1 = getField (readRegVal b s.address
        INA260_MASK_ENABLE_REGISTER) 14 1 ∧
      getField w 15 1 = getField (readRegVal b s.address
        INA260_MASK_ENABLE_REGISTER) 15 1) ∧
    (∃ w, (setConversionReadyAlert s b u).tr =
        [BusOp.readOp s.address INA260_MASK_ENABLE_REGISTER
          (readRegVal b s.address INA260_MASK_ENABLE_REGISTER),
          BusOp.writeOp s.address INA260_MASK_ENABLE_REGISTER w] ∧
      getField w 10 1 = (if u then 1 else 0) ∧
      getField w 0 1 = getField (readRegVal b s.address
        INA260_MASK_ENABLE_REGISTER) 0 1 ∧
      getField w 1 1 = getField (readRegVal b s.address
        INA260_MASK_ENABLE_REGISTER) 1 1 ∧
      getField w 2 1 = getField (readRegVal b s.address
        INA260_MASK_ENABLE_REGISTER) 2 1 ∧
      getField w 3 1 = getField (readRegVal b s.address
        INA260_MASK_ENABLE_REGISTER) 3 1 ∧
      getField w 4 1 = getField (readRegVal b s.address
        INA260_MASK_ENABLE_REGISTER) 4 1 ∧
      getField w 5 5 = getField (readRegVal b s.address
        INA260_MASK_ENABLE_REGISTER) 5 5 ∧
      getField w 11 1 = getField (readRegVal b s.address
        INA260_MASK_ENABLE_REGISTER) 11 1 ∧
      getField w 12 1 = getField (readRegVal b s.address
        INA260_MASK_ENABLE_REGISTER) 12 1 ∧
      getField w 13 1 = getField (readRegVal b s.address
        INA260_MASK_ENABLE_REGISTER) 13 1 ∧
      getField w 14 1 = getField (readRegVal b s.address
        INA260_MASK_ENABLE_REGISTER) 14 1 ∧
      getField w 15 1 = getField (readRegVal b s.address
        INA260_MASK_ENABLE_REGISTER) 15 1) := by
  have hvc := readRegVal_lt b s.address INA260_CONFIG_REGISTER
  have hvm := readRegVal_lt b s.address INA260_MASK_ENABLE_REGISTER
  refine ⟨?_, ?_, ?_, ?_, ?_, ?_, ?_⟩
  · unfold setMode readConfigurationRegister writeConfigurationRegister
      readRegister writeRegister
    dsimp only
    rw [setF16_mod _ _ _ _ hvc (by decide)]
    exact ⟨_, rfl, getField_setF_self _ 0 3 _,
      getField_setF_above _ 0 3 _ 3 3 (by decide),
      getField_setF_above _ 0 3 _ 6 3 (by decide),
      getField_setF_above _ 0 3 _ 9 3 (by decide),
      getField_setF_above _ 0 3 _ 12 3 (by decide),
      getField_setF_above _ 0 3 _ 15 1 (by decide)⟩
  · unfold setCurrentConversionTime readConfigurationRegister
      writeConfigurationRegister readRegister writeRegister
    dsimp only
    rw [setF16_mod _ _ _ _ hvc (by decide)]
    exact ⟨_, rfl, getField_setF_self _ 3 3 _,
      getField_setF_below _ 3 3 _ 0 3 (by decide),
      getField_setF_above _ 3 3 _ 6 3 (by decide),
      getField_setF_above _ 3 3 _ 9 3 (by decide),
      getField_setF_above _ 3 3 _ 12 3 (by decide),
      getField_setF_above _ 3 3 _ 15 1 (by decide)⟩
  · unfold setVoltageConversionTime readConfigurationRegister
      writeConfigurationRegister readRegister writeRegister
    dsimp only
    rw [setF16_mod _ _ _ _ hvc (by decide)]
    exact ⟨_, rfl, getField_setF_self _ 6 3 _,
      getField_setF_below _ 6 3 _ 0 3 (by decide),
      getField_setF_below _ 6 3 _ 3 3 (by decide),
      getField_setF_above _ 6 3 _ 9 3 (by decide),
      getField_setF_above _ 6 3 _ 12 3 (by decide),
      getField_setF_above _ 6 3 _ 15 1 (by decide)⟩
  · unfold setAveragingCount readConfigurationRegister
      writeConfigurationRegister readRegister writeRegister
    dsimp only
    rw [setF16_mod _ _ _ _ hvc (by decide)]
    exact ⟨_, rfl, getField_setF_self _ 9 3 _,
      getField_setF_below _ 9 3 _ 0 3 (by decide),
      getField_setF_below _ 9 3 _ 3 3 (by decide),
      getField_setF_below _ 9 3 _ 6 3 (by decide),
      getField_setF_above _ 9 3 _ 12 3 (by decide),
      getField_setF_above _ 9 3 _ 15 1 (by decide)⟩
  · unfold setAlertPolarity readMaskEnableRegister writeMaskEnableRegister
      readRegister writeRegister
    dsimp only
    rw [setF16_mod _ _ _ _ hvm (by decide)]
    refine ⟨_, rfl, ?_,
      getField_setF_below _ 1 1 _ 0 1 (by decide),
      getField_setF_above _ 1 1 _ 2 1 (by decide),
      getField_setF_above _ 1 1 _ 3 1 (by decide),
      getField_setF_above _ 1 1 _ 4 1 (by decide),
      getField_setF_above _ 1 1 _ 5 5 (by decide),
      getField_setF_above _ 1 1 _ 10 1 (by decide),
      getField_setF_above _ 1 1 _ 11 1 (by decide),
      getField_setF_above _ 1 1 _ 12 1 (by decide),
      getField_setF_above _ 1 1 _ 13 1 (by decide),
      getField_setF_above _ 1 1 _ 14 1 (by decide),
      getField_setF_above _ 1 1 _ 15 1 (by decide)⟩
    rw [getField_setF_self]
    cases p <;> rfl
  · unfold setAlertLatch readMaskEnableRegister writeMaskEnableRegister
      readRegister writeRegister
    dsimp only
    rw [setF16_mod _ _ _ _ hvm (by decide)]
    refine ⟨_, rfl, ?_,
      getField_setF_above _ 0 1 _ 1 1 (by decide),
      getField_setF_above _ 0 1 _ 2 1 (by decide),
      getField_setF_above _ 0 1 _ 3 1 (by decide),
      getField_setF_above _ 0 1 _ 4 1 (by decide),
      getField_setF_above _ 0 1 _ 5 5 (by decide),
      getField_setF_above _ 0 1 _ 10 1 (by decide),
      getField_setF_above _ 0 1 _ 11 1 (by decide),
      getField_setF_above _ 0 1 _ 12 1 (by decide),
      getField_setF_above _ 0 1 _ 13 1 (by decide),
      getField_setF_above _ 0 1 _ 14 1 (by decide),
      getField_setF_above _ 0 1 _ 15 1 (by decide)⟩
    rw [getField_setF_self]
    cases q <;> rfl
  · unfold setConversionReadyAlert readMaskEnableRegister
      writeMaskEnableRegister readRegister writeRegister
    dsimp only
    rw [setF16_mod _ _ _ _ hvm (by decide)]
    refine ⟨_, rfl, ?_,
      getField_setF_below _ 10 1 _ 0 1 (by decide),
      getField_setF_below _ 10 1 _ 1 1 (by decide),
      getField_setF_below _ 10 1 _ 2 1 (by decide),
      getField_setF_below _ 10 1 _ 3 1 (by decide),
      getField_setF_below _ 10 1 _ 4 1 (by decide),
      getField_setF_below _ 10 1 _ 5 5 (by decide),
      getField_setF_above _ 10 1 _ 11 1 (by decide),
      getField_setF_above _ 10 1 _ 12 1 (by decide),
      getField_setF_above _ 10 1 _ 13 1 (by decide),
      getField_setF_above _ 10 1 _ 14 1 (by decide),
      getField_setF_above _ 10 1 _ 15 1 (by decide)⟩
    rw [getField_setF_self]
    cases u <;> rfl

set_option maxRecDepth 4096 in
/-- C7 counterexample: the scan probes exactly addresses 1 through 126 —
126 probes, not one per address of the entire 7-bit space: addresses 0 and
127 are never probed. -/
theorem C7_counterexample :
    probedAddrs (findDevices st0 busZero).tr = List.range' 1 126 ∧
    (0 ∈ probedAddrs (findDevices st0 busZero).tr) = False ∧
    (127 ∈ probedAddrs (findDevices st0 busZero).tr) = False ∧
    (probedAddrs (findDevices st0 busZero).tr).length = 126 := by
  decide

/-- C7 (amended): `findDevices` issues one zero-length probe per address
for exactly the addresses 1..126 (`List.range' 1 126`), in increasing
order; each acknowledging address is recorded at the next index of
`devices[]` and increments `deviceCount` by one, and non-acknowledging
addresses change nothing. -/
theorem C7_linear_scan (s : INA260State) (b : Bus) :
    probedAddrs (findDevices s b).tr = List.range' 1 126 ∧
    (findDevices s b).st.deviceCount =
      s.deviceCount + ((List.range' 1 126).filter b.ack).length ∧
    ∀ i, (findDevices s b).st.devices i =
      if s.deviceCount ≤ i ∧
          i < s.deviceCount + ((List.range' 1 126).filter b.ack).length
      then ((List.range' 1 126).filter b.ack).getD (i - s.deviceCount) 0
      else s.devices i := by
  have h := findDevicesGo_spec b (List.range' 1 126) s
  exact ⟨h.1, h.2.2.2.2.1, h.2.2.2.2.2.2⟩

/-- C10: when at least one address acknowledges, the stores performed by
`findDevices` all land inside the 16-element `devices[]` array exactly
when the initial `deviceCount` plus the number of acknowledging addresses
does not exceed 16 (the initial `deviceCount` is arbitrary here, as the
C++ constructor leaves it uninitialised). -/
theorem C10_store_bounds (s : INA260State) (b : Bus)
    (h : 1 ≤ ((List.range' 1 126).filter b.ack).length) :
    (∀ i ∈ (findDevices s b).val, i < 16) ↔
      s.deviceCount + ((List.range' 1 126).filter b.ack).length ≤ 16 := by
  have hval : (findDevices s b).val =
      List.range' s.deviceCount (((List.range' 1 126).filter b.ack).length) :=
    (findDevicesGo_spec b (List.range' 1 126) s).2.2.2.2.2.1
  rw [hval]
  constructor
  · intro hall
    have hmem : s.deviceCount + ((List.range' 1 126).filter b.ack).length - 1
        ∈ List.range' s.deviceCount
          (((List.range' 1 126).filter b.ack).length) := by
      rw [List.mem_range'_1]
      omega
    have := hall _ hmem
    omega
  · intro hle i hi
    rw [List.mem_range'_1] at hi
    omega

set_option maxRecDepth 4096 in
/-- Witness for C10: a buffer already holding 15 entries and a single
acknowledging device, so the bound 15 + 1 ≤ 16 is tight. -/
theorem C10_store_bounds_witness :
    1 ≤ ((List.range' 1 126).filter bus5.ack).length ∧
    ((∀ i ∈ (findDevices st15 bus5).val, i < 16) ↔
      st15.deviceCount + ((List.range' 1 126).filter bus5.ack).length ≤ 16) :=
  ⟨by decide, C10_store_bounds st15 bus5 (by decide)⟩

/-- C4 counterexample: `readAlertLimitRegister` performs two register
reads, and `enableOverCurrentLimitAlert` performs two register writes, so
not every accessor is limited to one read plus at most one write-back. -/
theorem C4_counterexample :
    numReads (readAlertLimitRegister st0 busZero).tr = 2 ∧
    ¬numReads (readAlertLimitRegister st0 busZero).tr ≤ 1 ∧
    numWrites (enableOverCurrentLimitAlert st0 busZero 1000).tr = 2 ∧
    ¬numWrites (enableOverCurrentLimitAlert st0 busZero 1000).tr ≤ 1 := by
  decide

/-- C4 (amended): every public accessor issues at most one register read
plus at most one register write-back, except `readAlertLimitRegister`
(two reads, no write) and the five `enable*LimitAlert` methods (one read,
two writes); `findDevices` issues only zero-length probes. -/
theorem C4_transaction_counts (s : INA260State) (b : Bus)
    (reg value n : Nat) (p : Bool) :
    (numReads (begin s b).tr = 0 ∧ numWrites (begin s b).tr = 1) ∧
    (numReads (reset s b).tr = 0 ∧ numWrites (reset s b).tr = 1) ∧
    (numReads (readRegister s b reg).tr = 1 ∧
      numWrites (readRegister s b reg).tr = 0) ∧
    (numReads (writeRegister s b reg value).tr = 0 ∧
      numWrites (writeRegister s b reg value).tr = 1) ∧
    (numReads (readConfigurationRegister s b).tr = 1 ∧
      numWrites (readConfigurationRegister s b).tr = 0) ∧
    (numReads (writeConfigurationRegister s b value).tr = 0 ∧
      numWrites (writeConfigurationRegister s b value).tr = 1) ∧
    (numReads (readCurrent s b).tr = 1 ∧
      numWrites (readCurrent s b).tr = 0) ∧
    (numReads (readBusVoltage s b).tr = 1 ∧
      numWrites (readBusVoltage s b).tr = 0) ∧
    (numReads (readPower s b).tr = 1 ∧ numWrites (readPower s b).tr = 0) ∧
    (numReads (readMaskEnableRegister s b).tr = 1 ∧
      numWrites (readMaskEnableRegister s b).tr = 0) ∧
    (numReads (writeMaskEnableRegister s b value).tr = 0 ∧
      numWrites (writeMaskEnableRegister s b value).tr = 1) ∧
    (numReads (readAlertLimitRegister s b).tr = 2 ∧
      numWrites (readAlertLimitRegister s b).tr = 0) ∧
    (numReads (writeAlertLimitRegister s b value).tr = 0 ∧
      numWrites (writeAlertLimitRegister s b value).tr = 1) ∧
    (numReads (setCurrentLimit s b n).tr = 0 ∧
      numWrites (setCurrentLimit s b n).tr = 1) ∧
    (numReads (setBusVoltageLimit s b n).tr = 0 ∧
      numWrites (setBusVoltageLimit s b n).tr = 1) ∧
    (numReads (setPowerLimit s b n).tr = 0 ∧
      numWrites (setPowerLimit s b n).tr = 1) ∧
    (numReads (enableOverCurrentLimitAlert s b n).tr = 1 ∧
      numWrites (enableOverCurrentLimitAlert s b n).tr = 2) ∧
    (numReads (enableUnderCurrentLimitAlert s b n).tr = 1 ∧
      numWrites (enableUnderCurrentLimitAlert s b n).tr = 2) ∧
    (numReads (enableBusOvertLimitAlert s b n).tr = 1 ∧
      numWrites (enableBusOvertLimitAlert s b n).tr = 2) ∧
    (numReads (enableBusUnderLimitAlert s b n).tr = 1 ∧
      numWrites (enableBusUnderLimitAlert s b n).tr = 2) ∧
    (numReads (enableOverPowerLimitAlert s b n).tr = 1 ∧
      numWrites (enableOverPowerLimitAlert s b n).tr = 2) ∧
    (numReads (isMathOverFlow s b).tr = 1 ∧
      numWrites (isMathOverFlow s b).tr = 0) ∧
    (numReads (isAlert s b).tr = 1 ∧ numWrites (isAlert s b).tr = 0) ∧
    (numReads (clearAlert s b).tr = 1 ∧ numWrites (clearAlert s b).tr = 0) ∧
    (numReads (isAlertPolaritySet s b).tr = 1 ∧
      numWrites (isAlertPolaritySet s b).tr = 0) ∧
    (numReads (setAlertPolarity s b p).tr = 1 ∧
      numWrites (setAlertPolarity s b p).tr = 1) ∧
    (numReads (isAlertLatchSet s b).tr = 1 ∧
      numWrites (isAlertLatchSet s b).tr = 0) ∧
    (numReads (setAlertLatch s b p).tr = 1 ∧
      numWrites (setAlertLatch s b p).tr = 1) ∧
    (numReads (getMode s b).tr = 1 ∧ numWrites (getMode s b).tr = 0) ∧
    (numReads (setMode s b n).tr = 1 ∧ numWrites (setMode s b n).tr = 1) ∧
    (numReads (isConversionRready s b).tr = 1 ∧
      numWrites (isConversionRready s b).tr = 0) ∧
    (numReads (setConversionReadyAlert s b p).tr = 1 ∧
      numWrites (setConversionReadyAlert s b p).tr = 1) ∧
    (numReads (getCurrentConversionTime s b).tr = 1 ∧
      numWrites (getCurrentConversionTime s b).tr = 0) ∧
    (numReads (setCurrentConversionTime s b n).tr = 1 ∧
      numWrites (setCurrentConversionTime s b n).tr = 1) ∧
    (numReads (getVoltageConversionTime s b).tr = 1 ∧
      numWrites (getVoltageConversionTime s b).tr = 0) ∧
    (numReads (setVoltageConversionTime s b n).tr = 1 ∧
      numWrites (setVoltageConversionTime s b n).tr = 1) ∧
    (numReads (getAveragingCount s b).tr = 1 ∧
      numWrites (getAveragingCount s b).tr = 0) ∧
    (numReads (setAveragingCount s b n).tr = 1 ∧
      numWrites (setAveragingCount s b n).tr = 1) ∧
    (numReads (readManufactuerId s b).tr = 1 ∧
      numWrites (readManufactuerId s b).tr = 0) ∧
    (numReads (readDieId s b).tr = 1 ∧ numWrites (readDieId s b).tr = 0) ∧
    (numReads (getAddress s).tr = 0 ∧ numWrites (getAddress s).tr = 0) ∧
    (numReads (setAddress s n).tr = 0 ∧ numWrites (setAddress s n).tr = 0) ∧
    (numReads (findDevices s b).tr = 0 ∧
      numWrites (findDevices s b).tr = 0) := by
  refine ⟨⟨rfl, rfl⟩, ⟨rfl, rfl⟩, ⟨rfl, rfl⟩, ⟨rfl, rfl⟩, ⟨rfl, rfl⟩,
    ⟨rfl, rfl⟩, ⟨rfl, rfl⟩, ⟨rfl, rfl⟩, ⟨rfl, rfl⟩, ⟨rfl, rfl⟩, ⟨rfl, rfl⟩,
    ⟨?_, ?_⟩, ⟨rfl, rfl⟩, ⟨rfl, rfl⟩, ⟨rfl, rfl⟩, ⟨rfl, rfl⟩, ⟨rfl, rfl⟩,
    ⟨rfl, rfl⟩, ⟨rfl, rfl⟩, ⟨rfl, rfl⟩, ⟨rfl, rfl⟩, ⟨rfl, rfl⟩, ⟨rfl, rfl⟩,
    ⟨rfl, rfl⟩, ⟨rfl, rfl⟩, ⟨rfl, rfl⟩, ⟨rfl, rfl⟩, ⟨rfl, rfl⟩, ⟨rfl, rfl⟩,
    ⟨rfl, rfl⟩, ⟨rfl, rfl⟩, ⟨rfl, rfl⟩, ⟨rfl, rfl⟩, ⟨rfl, rfl⟩, ⟨rfl, rfl⟩,
    ⟨rfl, rfl⟩, ⟨rfl, rfl⟩, ⟨rfl, rfl⟩, ⟨rfl, rfl⟩, ⟨rfl, rfl⟩, ⟨rfl, rfl⟩,
    ⟨rfl, rfl⟩,
    ⟨(findDevicesGo_spec b (List.range' 1 126) s).2.1,
      (findDevicesGo_spec b (List.range' 1 126) s).2.2.1⟩⟩
  · unfold readAlertLimitRegister readMaskEnableRegister readRegister
    dsimp only
    split <;> rfl
  · unfold readAlertLimitRegister readMaskEnableRegister readRegister
    dsimp only
    split <;> rfl

/-- C8: every public operation other than `setAddress` and `findDevices`
leaves all fields of the driver object unchanged; `setAddress` leaves the
discovery buffer and its count unchanged, and `findDevices` leaves the
device address unchanged. -/
theorem C8_state_frame (s : INA260State) (b : Bus) (reg value n : Nat)
    (p : Bool) :
    (begin s b).st = s ∧ (reset s b).st = s ∧
    (readRegister s b reg).st = s ∧ (writeRegister s b reg value).st = s ∧
    (readConfigurationRegister s b).st = s ∧
    (writeConfigurationRegister s b value).st = s ∧
    (readCurrent s b).st = s ∧ (readBusVoltage s b).st = s ∧
    (readPower s b).st = s ∧
    (readMaskEnableRegister s b).st = s ∧
    (writeMaskEnableRegister s b value).st = s ∧
    (readAlertLimitRegister s b).st = s ∧
    (writeAlertLimitRegister s b value).st = s ∧
    (enableOverCurrentLimitAlert s b n).st = s ∧
    (enableUnderCurrentLimitAlert s b n).st = s ∧
    (enableBusOvertLimitAlert s b n).st = s ∧
    (enableBusUnderLimitAlert s b n).st = s ∧
    (enableOverPowerLimitAlert s b n).st = s ∧
    (setCurrentLimit s b n).st = s ∧ (setBusVoltageLimit s b n).st = s ∧
    (setPowerLimit s b n).st = s ∧
    (isMathOverFlow s b).st = s ∧ (isAlert s b).st = s ∧
    (clearAlert s b).st = s ∧
    (isAlertPolaritySet s b).st = s ∧ (setAlertPolarity s b p).st = s ∧
    (isAlertLatchSet s b).st = s ∧ (setAlertLatch s b p).st = s ∧
    (getMode s b).st = s ∧ (setMode s b n).st = s ∧
    (isConversionRready s b).st = s ∧
    (setConversionReadyAlert s b p).st = s ∧
    (getCurrentConversionTime s b).st = s ∧
    (setCurrentConversionTime s b n).st = s ∧
    (getVoltageConversionTime s b).st = s ∧
    (setVoltageConversionTime s b n).st = s ∧
    (getAveragingCount s b).st = s ∧ (setAveragingCount s b n).st = s ∧
    (readManufactuerId s b).st = s ∧ (readDieId s b).st = s ∧
    (getAddress s).st = s ∧
    (setAddress s n).st.devices = s.devices ∧
    (setAddress s n).st.deviceCount = s.deviceCount ∧
    (findDevices s b).st.address = s.address := by
  refine ⟨rfl, rfl, rfl, rfl, rfl, rfl, rfl, rfl, rfl, rfl, rfl, ?_, rfl,
    rfl, rfl, rfl, rfl, rfl, rfl, rfl, rfl, rfl, rfl, rfl, rfl, rfl, rfl,
    rfl, rfl, rfl, rfl, rfl, rfl, rfl, rfl, rfl, rfl, rfl, rfl, rfl, rfl,
    rfl, rfl, (findDevicesGo_spec b (List.range' 1 126) s).2.2.2.1⟩
  unfold readAlertLimitRegister readMaskEnableRegister readRegister
  dsimp only
  split <;> rfl

/-- C9: a register read that delivers fewer than two bytes yields 0, and
every read accessor returns on such a failed read exactly what it would
return for a genuine register value of zero; the failure is not reported. -/
theorem C9_failed_read_reads_zero (s : INA260State) (b : Bus) (reg : Nat) :
    (readRegister s (withFailedRead b s.address reg) reg).val = 0 ∧
    (readCurrent s
        (withFailedRead b s.address INA260_CURRENT_REGISTER)).val =
      (readCurrent s (withZeroReg b s.address INA260_CURRENT_REGISTER)).val ∧
    (readBusVoltage s
        (withFailedRead b s.address INA260_VOLTAGE_REGISTER)).val =
      (readBusVoltage s
        (withZeroReg b s.address INA260_VOLTAGE_REGISTER)).val ∧
    (readPower s (withFailedRead b s.address INA260_POWER_REGISTER)).val =
      (readPower s (withZeroReg b s.address INA260_POWER_REGISTER)).val ∧
    (readConfigurationRegister s
        (withFailedRead b s.address INA260_CONFIG_REGISTER)).val =
      (readConfigurationRegister s
        (withZeroReg b s.address INA260_CONFIG_REGISTER)).val ∧
    (readMaskEnableRegister s
        (withFailedRead b s.address INA260_MASK_ENABLE_REGISTER)).val =
      (readMaskEnableRegister s
        (withZeroReg b s.address INA260_MASK_ENABLE_REGISTER)).val ∧
    (readAlertLimitRegister s
        (withFailedRead b s.address INA260_MASK_ENABLE_REGISTER)).val =
      (readAlertLimitRegister s
        (withZeroReg b s.address INA260_MASK_ENABLE_REGISTER)).val ∧
    (readAlertLimitRegister s
        (withFailedRead b s.address INA260_ALERT_LIMIT_REGISTER)).val =
      (readAlertLimitRegister s
        (withZeroReg b s.address INA260_ALERT_LIMIT_REGISTER)).val ∧
    (isMathOverFlow s
        (withFailedRead b s.address INA260_MASK_ENABLE_REGISTER)).val =
      (isMathOverFlow s
        (withZeroReg b s.address INA260_MASK_ENABLE_REGISTER)).val ∧
    (isAlert s (withFailedRead b s.address INA260_MASK_ENABLE_REGISTER)).val =
      (isAlert s (withZeroReg b s.address INA260_MASK_ENABLE_REGISTER)).val ∧
    (isAlertPolaritySet s
        (withFailedRead b s.address INA260_MASK_ENABLE_REGISTER)).val =
      (isAlertPolaritySet s
        (withZeroReg b s.address INA260_MASK_ENABLE_REGISTER)).val ∧
    (isAlertLatchSet s
        (withFailedRead b s.address INA260_MASK_ENABLE_REGISTER)).val =
      (isAlertLatchSet s
        (withZeroReg b s.address INA260_MASK_ENABLE_REGISTER)).val ∧
    (isConversionRready s
        (withFailedRead b s.address INA260_MASK_ENABLE_REGISTER)).val =
      (isConversionRready s
        (withZeroReg b s.address INA260_MASK_ENABLE_REGISTER)).val ∧
    (getMode s (withFailedRead b s.address INA260_CONFIG_REGISTER)).val =
      (getMode s (withZeroReg b s.address INA260_CONFIG_REGISTER)).val ∧
    (getCurrentConversionTime s
        (withFailedRead b s.address INA260_CONFIG_REGISTER)).val =
      (getCurrentConversionTime s
        (withZeroReg b s.address INA260_CONFIG_REGISTER)).val ∧
    (getVoltageConversionTime s
        (withFailedRead b s.address INA260_CONFIG_REGISTER)).val =
      (getVoltageConversionTime s
        (withZeroReg b s.address INA260_CONFIG_REGISTER)).val ∧
    (getAveragingCount s
        (withFailedRead b s.address INA260_CONFIG_REGISTER)).val =
      (getAveragingCount s
        (withZeroReg b s.address INA260_CONFIG_REGISTER)).val ∧
    (readManufactuerId s
        (withFailedRead b s.address INA260_MANUFACTURER_ID_REGISTER)).val =
      (readManufactuerId s
        (withZeroReg b s.address INA260_MANUFACTURER_ID_REGISTER)).val ∧
    (readDieId s (withFailedRead b s.address INA260_DIE_ID_REGISTER)).val =
      (readDieId s (withZeroReg b s.address INA260_DIE_ID_REGISTER)).val := by
  refine ⟨?_, ?_, ?_, ?_, ?_, ?_, ?_, ?_, ?_, ?_, ?_, ?_, ?_, ?_, ?_, ?_,
    ?_, ?_, ?_⟩
  · simp [readRegister, readRegVal, withFailedRead]
  · simp [readCurrent, readRegister, readRegVal, withFailedRead, withZeroReg]
  · simp [readBusVoltage, readRegister, readRegVal, withFailedRead,
      withZeroReg]
  · simp [readPower, readRegister, readRegVal, withFailedRead, withZeroReg]
  · simp [readConfigurationRegister, readRegister, readRegVal,
      withFailedRead, withZeroReg]
  · simp [readMaskEnableRegister, readRegister, readRegVal, withFailedRead,
      withZeroReg]
  · simp [readAlertLimitRegister, readMaskEnableRegister, readRegister,
      readRegVal, withFailedRead, withZeroReg, INA260_MASK_ENABLE_REGISTER,
      INA260_ALERT_LIMIT_REGISTER, getField]
  · simp only [readAlertLimitRegister, readMaskEnableRegister, readRegister,
      readRegVal, withFailedRead, withZeroReg, INA260_MASK_ENABLE_REGISTER,
      INA260_ALERT_LIMIT_REGISTER]
    norm_num
  · simp [isMathOverFlow, readMaskEnableRegister, readRegister, readRegVal,
      withFailedRead, withZeroReg]
  · simp [isAlert, readMaskEnableRegister, readRegister, readRegVal,
      withFailedRead, withZeroReg]
  · simp [isAlertPolaritySet, readMaskEnableRegister, readRegister,
      readRegVal, withFailedRead, withZeroReg]
  · simp [isAlertLatchSet, readMaskEnableRegister, readRegister, readRegVal,
      withFailedRead, withZeroReg]
  · simp [isConversionRready, readMaskEnableRegister, readRegister,
      readRegVal, withFailedRead, withZeroReg]
  · simp [getMode, readConfigurationRegister, readRegister, readRegVal,
      withFailedRead, withZeroReg]
  · simp [getCurrentConversionTime, readConfigurationRegister, readRegister,
      readRegVal, withFailedRead, withZeroReg]
  · simp [getVoltageConversionTime, readConfigurationRegister, readRegister,
      readRegVal, withFailedRead, withZeroReg]
  · simp [getAveragingCount, readConfigurationRegister, readRegister,
      readRegVal, withFailedRead, withZeroReg]
  · simp [readManufactuerId, readRegister, readRegVal, withFailedRead,
      withZeroReg]
  · simp [readDieId, readRegister, readRegVal, withFailedRead, withZeroReg]
